import Mathlib

/-!
Shallow embedding of the gateway-addon-node IPC/dispatch core:
the Property classes (legacy untyped and generic), the Device dispatch
surface, the IpcSocket channel (bind/connect/close/onData) and the
PluginClient registration handshake, together with theorems checking the
natural-language specification against this embedding.

JavaScript runtime values relevant to the embedded code are modelled by
`JSVal` (numbers as integers, which is faithful for every comparison the
embedded code performs on the claims under study); `undefined`/missing
object fields are modelled by `Option`.
-/

namespace GatewayAddon

/-- A JavaScript value as it flows through property setters and messages:
booleans, numbers (modelled as integers), strings and null. -/
inductive JSVal where
  | bool (b : Bool)
  | num (n : Int)
  | str (s : String)
  | null
deriving DecidableEq, Repr

/-- JavaScript truthiness of a `JSVal` (`!!value`). -/
def JSVal.truthy : JSVal → Bool
  | .bool b => b
  | .num n => n != 0
  | .str s => s ≠ ""
  | .null => false

/-- JavaScript numeric coercion (`Number(value)`): `none` models `NaN`.
Strings coerce via decimal parsing; non-numeric strings give `NaN`. -/
def JSVal.toNum : JSVal → Option Int
  | .bool b => some (if b then 1 else 0)
  | .num n => some n
  | .str s => s.toInt?
  | .null => some 0

/-- JavaScript `value < m` for a numeric bound `m` (false when `value`
coerces to `NaN`). -/
def jsLtNum (v : JSVal) (m : Int) : Bool :=
  match v.toNum with
  | some n => n < m
  | none => false

/-- JavaScript `value > m` for a numeric bound `m` (false when `value`
coerces to `NaN`). -/
def jsGtNum (v : JSVal) (m : Int) : Bool :=
  match v.toNum with
  | some n => m < n
  | none => false

/-- JavaScript `value % k !== 0` (true when `value` coerces to `NaN`,
since `NaN % k` is `NaN` and `NaN !== 0`). -/
def jsModNeZero (v : JSVal) (k : Int) : Bool :=
  match v.toNum with
  | some n => n % k != 0
  | none => true

/-- JavaScript `Array.prototype.includes` on a string array applied to a
`JSVal`: strict equality, so only string values can match. -/
def jsIncludes (l : List String) (v : JSVal) : Bool :=
  match v with
  | .str s => l.contains s
  | _ => false

/-- JavaScript truthiness of an optional boolean field (`undefined` and
`false` are falsy). -/
def jsTruthyOptBool : Option Bool → Bool
  | some b => b
  | none => false

/-- JavaScript truthiness of an optional numeric field (`undefined` and
`0` are falsy). -/
def jsTruthyOptNum : Option Int → Bool
  | some n => n != 0
  | none => false

/-- JavaScript `a || b` on optional strings (`undefined` and `""` are
falsy). -/
def jsOrStr (a b : Option String) : Option String :=
  match a with
  | some s => if s = "" then b else some s
  | none => b

/-- JavaScript `a || b` on optional numbers (`undefined` and `0` are
falsy). -/
def jsOrNum (a b : Option Int) : Option Int :=
  match a with
  | some n => if n = 0 then b else some n
  | none => b

/-- The `LegacyPropertyDescription` interface of `property.ts`:
`PropertyDescription` plus the legacy aliases `min`/`max`/`label`.
`Option` fields model possibly-absent object keys; `typ`/`atType` stand
for the `type`/`@type` keys. -/
structure LegacyPropertyDescription where
  visible : Option Bool := none
  title : Option String := none
  label : Option String := none
  typ : Option String := none
  atType : Option String := none
  unit : Option String := none
  descr : Option String := none
  minimum : Option Int := none
  maximum : Option Int := none
  min : Option Int := none
  max : Option Int := none
  enum : Option (List String) := none
  readOnly : Option Bool := none
  multipleOf : Option Int := none
  links : Option (List String) := none
deriving DecidableEq, Repr

/-- The legacy (untyped) `Property` class of `property.ts`: its fields
after construction. `value`/`prevGetValue` start `undefined`. -/
structure LegacyProperty where
  name : String
  visible : Bool
  title : Option String := none
  typ : Option String := none
  atType : Option String := none
  unit : Option String := none
  descr : Option String := none
  minimum : Option Int := none
  maximum : Option Int := none
  enum : Option (List String) := none
  readOnly : Option Bool := none
  multipleOf : Option Int := none
  links : Option (List String) := none
  value : Option JSVal := none
  prevGetValue : Option JSVal := none
  fireAndForget : Bool := false
deriving DecidableEq, Repr

/-- The legacy `Property` constructor: field-by-field translation of
`property.ts` lines 36-54. In particular
`this.visible = propertyDescr.visible || true`. -/
def LegacyProperty.construct (name : String) (d : LegacyPropertyDescription) : LegacyProperty :=
  { name := name
    visible := (match d.visible with
      | some b => if b then b else true
      | none => true)
    title := jsOrStr d.title d.label
    typ := d.typ
    atType := d.atType
    unit := d.unit
    descr := d.descr
    minimum := jsOrNum d.minimum d.min
    maximum := jsOrNum d.maximum d.max
    enum := d.enum
    readOnly := d.readOnly
    multipleOf := d.multipleOf
    links := d.links }

/-- Legacy `Property.isVisible`. -/
def LegacyProperty.isVisible (p : LegacyProperty) : Bool :=
  p.visible

/-- The generic `Property<T>` class of `property.ts` (the one `Device`
instantiates): its fields after construction. -/
structure Property where
  name : String
  visible : Bool
  title : Option String := none
  typ : Option String := none
  atType : Option String := none
  unit : Option String := none
  descr : Option String := none
  minimum : Option Int := none
  maximum : Option Int := none
  enum : Option (List String) := none
  readOnly : Option Bool := none
  multipleOf : Option Int := none
  links : Option (List String) := none
  value : Option JSVal := none
  prevGetValue : Option JSVal := none
  fireAndForget : Bool := false
deriving DecidableEq, Repr

/-- The generic `Property<T>` constructor (`property.ts` lines 257-292):
`this.visible = { visible: this.visible, ...legacyPropertyDescr }.visible`
(spread overrides the default `true` whenever the descriptor carries the
`visible` key), then `fromLegacyProperties` merges the legacy aliases and
`assign` copies the description fields (not `visible`). -/
def Property.construct (name : String) (d : LegacyPropertyDescription) : Property :=
  { name := name
    visible := (match d.visible with
      | some b => b
      | none => true)
    title := jsOrStr d.title d.label
    typ := d.typ
    atType := d.atType
    unit := d.unit
    descr := d.descr
    minimum := jsOrNum d.minimum d.min
    maximum := jsOrNum d.maximum d.max
    enum := d.enum
    readOnly := d.readOnly
    multipleOf := d.multipleOf
    links := d.links }

/-- Generic `Property<T>.isVisible`. -/
def Property.isVisible (p : Property) : Bool :=
  p.visible

/-- Embeds `Property<T>.setCachedValue` (`property.ts` lines 350-358): when the
declared type is `boolean` the stored value is coerced with `!!value`. -/
def Property.setCachedValue (p : Property) (v : JSVal) : Property :=
  if p.typ = some "boolean" then
    { p with value := some (.bool v.truthy) }
  else
    { p with value := some v }

/-- Embeds `Property<T>.setCachedValueAndNotify` (`property.ts` lines 328-344):
returns the updated property and whether the device was notified
(`hasChanged`, i.e. `oldValue !== this.value` after `setCachedValue`). -/
def Property.setCachedValueAndNotify (p : Property) (v : JSVal) : Property × Bool :=
  let oldValue := p.value
  let p1 := p.setCachedValue v
  let hasChanged := oldValue ≠ p1.value
  (p1, hasChanged)

/-- Outcome of `Property<T>.setValue`: the promise result (`resolve`d
value or `reject`ion message), the property afterwards, and whether
`device.notifyPropertyChanged` was invoked. -/
structure SetValueOutcome where
  result : Except String (Option JSVal)
  prop : Property
  notified : Bool
deriving Repr

/-- Embeds `Property<T>.setValue` (`property.ts` lines 389-420): guard-by-guard
translation. Each `reject(...); return` path leaves the property as it
was and performs no notification; the success path runs
`setCachedValueAndNotify` and resolves with `this.value`. -/
def Property.setValue (p : Property) (v : JSVal) : SetValueOutcome :=
  if jsTruthyOptBool p.readOnly then
    ⟨.error "Read-only property", p, false⟩
  else if jsTruthyOptNum p.minimum && jsLtNum v (p.minimum.getD 0) then
    ⟨.error ("Value less than minimum: " ++ toString (p.minimum.getD 0)), p, false⟩
  else if jsTruthyOptNum p.maximum && jsGtNum v (p.maximum.getD 0) then
    ⟨.error ("Value greater than maximum: " ++ toString (p.maximum.getD 0)), p, false⟩
  else if jsTruthyOptNum p.multipleOf && jsModNeZero v (p.multipleOf.getD 0) then
    ⟨.error ("Value is not a multiple of: " ++ toString (p.multipleOf.getD 0)), p, false⟩
  else if (match p.enum with
    | some l => decide (0 < l.length) && !(jsIncludes l v)
    | none => false) then
    ⟨.error "Invalid enum value", p, false⟩
  else
    let (p1, hasChanged) := p.setCachedValueAndNotify v
    ⟨.ok p1.value, p1, hasChanged⟩

/-- An outbound notification message produced toward the session channel.

Modelled from the spec: `AddonManagerProxy.sendPropertyChangedNotification`
is not under `src/` (only its callers are); per §4.4/§6 a property change
is serialized as a `PROPERTY_CHANGED` message carrying the device id and
the property, sent fire-and-forget on the session channel. -/
structure OutNotification where
  messageType : String
  deviceId : String
  propertyName : String
  propertyValue : Option JSVal
deriving DecidableEq, Repr

/-- Modelled from the spec: the manager proxy serializes the changed
property as a `PROPERTY_CHANGED` message toward the session channel
(spec §4.4 outbound mapping, §6 wire format). -/
def sendPropertyChangedNotification (deviceId : String) (p : Property) : OutNotification :=
  { messageType := "PROPERTY_CHANGED"
    deviceId := deviceId
    propertyName := p.name
    propertyValue := p.value }

/-- The `Device` class (device model file): the fields its dispatch
surface needs. `properties` is a `Map<string, Property<any>>`, modelled
as an association list with unique keys. -/
structure Device where
  id : String
  properties : List (String × Property)
deriving Repr

/-- Embeds `Device.findProperty`: `this.properties.get(propertyName)`. -/
def Device.findProperty (d : Device) (propertyName : String) : Option Property :=
  (d.properties.find? (fun kv => kv.1 = propertyName)).map (fun kv => kv.2)

/-- Replace the stored property object under a key (the TS code mutates
the found `Property` in place; in the functional embedding the map entry
is replaced). -/
def Device.storeProperty (d : Device) (propertyName : String) (p : Property) : Device :=
  { d with properties :=
      d.properties.map (fun kv => if kv.1 = propertyName then (kv.1, p) else kv) }

/-- Outcome of `Device.setProperty`: the promise result, the device
afterwards, and the notifications emitted toward the session channel
(via `Device.notifyPropertyChanged` →
`adapter.manager.sendPropertyChangedNotification`). -/
structure DeviceSetOutcome where
  result : Except String (Option JSVal)
  device : Device
  notifications : List OutNotification
deriving Repr

/-- Embeds `Device.setProperty` (device model file lines 224-231): find the
property; if present delegate to `property.setValue(value)` (whose
notify path calls `this.device.notifyPropertyChanged(this)`, forwarded
by the device to the manager); otherwise reject. -/
def Device.setProperty (d : Device) (propertyName : String) (value : JSVal) : DeviceSetOutcome :=
  match d.findProperty propertyName with
  | some p =>
    let out := p.setValue value
    { result := out.result
      device := d.storeProperty propertyName out.prop
      notifications :=
        if out.notified then [sendPropertyChangedNotification d.id out.prop] else [] }
  | none =>
    { result := .error ("Property \"" ++ propertyName ++ "\" not found")
      device := d
      notifications := [] }

/-! ## The IpcSocket channel (`ipc.ts`) -/

/-- The handler a socket forwards validated inbound messages to
(`onMsg`): either `PluginClient.onManagerMsg` (bound in `register`) or
the `AddonManagerProxy.onMsg` of the proxy built during registration. -/
inductive HandlerRef where
  | onManagerMsg
  | addonManagerOnMsg
deriving DecidableEq, Repr

/-- The `/tmp/${baseAddr}` / `${appInstance}-${baseAddr}` / throw switch
of the `IpcSocket` constructor (`ipc.ts` lines 30-44). The `baseAddr`
argument is optional to model a JavaScript `undefined` flowing into the
template literal (which renders as the string `undefined`). -/
def mkIpcFile (protocol : String) (baseAddr : Option String) (appInstance : String) : Except String String :=
  match protocol with
  | "ipc" => .ok ("/tmp/" ++ baseAddr.getD "undefined")
  | "inproc" => .ok (appInstance ++ "-" ++ baseAddr.getD "undefined")
  | _ => .error ("Unsupported IPC protocol: " ++ protocol)

/-- An `IpcSocket` instance: constructor arguments plus the computed
address and the `bound`/`connected` state flags. -/
structure IpcSocket where
  name : String
  socketType : String
  protocol : String
  baseAddr : Option String
  ipcFile : String
  ipcAddr : String
  handler : HandlerRef
  appInstance : String
  bound : Bool := false
  connected : Bool := false
deriving DecidableEq, Repr

/-- The `IpcSocket` constructor (`ipc.ts` lines 25-73): computes
`ipcFile`/`ipcAddr` from the protocol (throwing on an unsupported one)
and starts unbound and unconnected. -/
def IpcSocket.construct (name socketType protocol : String) (baseAddr : Option String)
    (handler : HandlerRef) (appInstance : String) : Except String IpcSocket :=
  match mkIpcFile protocol baseAddr appInstance with
  | .error e => .error e
  | .ok file =>
    .ok { name := name
          socketType := socketType
          protocol := protocol
          baseAddr := baseAddr
          ipcFile := file
          ipcAddr := protocol ++ "://" ++ file
          handler := handler
          appInstance := appInstance }

/-- The process-wide address-uniqueness state of `ipc.ts`: the module
globals `boundAddrs` and `connectedAddrs` (JavaScript `Set`s, modelled
as duplicate-free lists; empty at process start). -/
structure IpcGlobals where
  boundAddrs : List String := []
  connectedAddrs : List String := []
deriving DecidableEq, Repr

/-- Models `Set.prototype.add` on the list model of a JS `Set`. -/
def setAdd (l : List String) (a : String) : List String :=
  if l.contains a then l else l ++ [a]

/-- Models `Set.prototype.delete` on the list model of a JS `Set` (removes the
entry for `a`; a `Set` holds at most one). -/
def setDelete (l : List String) (a : String) : List String :=
  l.filter (fun x => x ≠ a)

/-- Externally visible effects of a socket operation, in program order:
`console.error` logs, filesystem cleanup, and the calls into the
underlying nanomsg transport. -/
inductive SockEffect where
  | logError (s : String)
  | unlinkIfExists (file : String)
  | transportBind (addr : String)
  | transportConnect (addr : String)
  | transportClose
deriving DecidableEq, Repr

/-- Result of a socket operation: the globals and socket afterwards plus
the emitted effects. -/
structure SockStep where
  globals : IpcGlobals
  sock : IpcSocket
  effects : List SockEffect
deriving DecidableEq, Repr

/-- Embeds `IpcSocket.bind` (`ipc.ts` lines 85-109): logs (but does not throw)
on re-bind/re-connect and on a pair-address conflict, marks the socket
bound, records the address for pair sockets, clears a stale `ipc` file,
and always proceeds to bind on the transport. -/
def IpcSocket.bind (g : IpcGlobals) (s : IpcSocket) : SockStep :=
  let logs1 := (if s.bound then [SockEffect.logError ("socket already bound: " ++ s.ipcAddr)] else [])
    ++ (if s.connected then [SockEffect.logError ("socket already connected: " ++ s.ipcAddr)] else [])
  let s1 := { s with bound := true }
  let pairStep :=
    if s1.socketType = "pair" then
      (({ g with boundAddrs := setAdd g.boundAddrs s1.ipcAddr } : IpcGlobals),
        if g.boundAddrs.contains s1.ipcAddr then
          [SockEffect.logError ("address already bound: " ++ s1.ipcAddr)]
        else [])
    else (g, [])
  let fsEffects := if s1.protocol = "ipc" then [SockEffect.unlinkIfExists s1.ipcFile] else []
  { globals := pairStep.1
    sock := s1
    effects := logs1 ++ pairStep.2 ++ fsEffects ++ [SockEffect.transportBind s1.ipcAddr] }

/-- Embeds `IpcSocket.connect` (`ipc.ts` lines 111-130): logs (but does not
throw) on re-bind/re-connect and on a pair-address conflict, marks the
socket connected, records the address for pair sockets, and always
proceeds to connect on the transport. -/
def IpcSocket.connect (g : IpcGlobals) (s : IpcSocket) : SockStep :=
  let logs1 := (if s.bound then [SockEffect.logError ("socket already bound: " ++ s.ipcAddr)] else [])
    ++ (if s.connected then [SockEffect.logError ("socket already connected: " ++ s.ipcAddr)] else [])
  let s1 := { s with connected := true }
  let pairStep :=
    if s1.socketType = "pair" then
      (({ g with connectedAddrs := setAdd g.connectedAddrs s1.ipcAddr } : IpcGlobals),
        if g.connectedAddrs.contains s1.ipcAddr then
          [SockEffect.logError ("address already connected: " ++ s1.ipcAddr)]
        else [])
    else (g, [])
  { globals := pairStep.1
    sock := s1
    effects := logs1 ++ pairStep.2 ++ [SockEffect.transportConnect s1.ipcAddr] }

/-- Embeds `IpcSocket.close` (`ipc.ts` lines 132-148): a connected socket drops
its connected flag and (if pair-type) its `connectedAddrs` entry; else a
bound socket drops its bound flag and (if pair-type) its `boundAddrs`
entry; else the misuse is logged. The transport socket is always
closed. -/
def IpcSocket.close (g : IpcGlobals) (s : IpcSocket) : SockStep :=
  if s.connected then
    { globals :=
        if s.socketType = "pair" then
          { g with connectedAddrs := setDelete g.connectedAddrs s.ipcAddr }
        else g
      sock := { s with connected := false }
      effects := [SockEffect.transportClose] }
  else if s.bound then
    { globals :=
        if s.socketType = "pair" then
          { g with boundAddrs := setDelete g.boundAddrs s.ipcAddr }
        else g
      sock := { s with bound := false }
      effects := [SockEffect.transportClose] }
  else
    { globals := g
      sock := s
      effects := [SockEffect.logError ("socket not connected or bound: " ++ s.ipcAddr),
        SockEffect.transportClose] }

/-- Observable behaviour of `IpcSocket.onData` for one inbound buffer:
error logs and calls of the onMsg handler of the socket, in program
order. `J` is the type of decoded JSON documents. -/
inductive MsgEffect (J : Type) where
  | logError (s : String)
  | onMsg (data : J)
deriving DecidableEq, Repr

/-- Embeds `IpcSocket.onData` (`ipc.ts` lines 156-175), parameterized by the
JSON decoder of the runtime (`JSON.parse`, `none` = a thrown parse error) and
by the schema validator (`this.validate({ message: data })`). On a parse
failure it logs three lines (the notice, the raw buffer, the error
object) and returns; on a validation failure it logs but still forwards
the decoded message to `this.onMsg`. -/
def IpcSocket.onData {J : Type} (parseJson : String → Option J) (validate : J → Bool)
    (buf : String) : List (MsgEffect J) :=
  match parseJson buf with
  | none =>
    [MsgEffect.logError "Error parsing message as JSON",
      MsgEffect.logError ("Rcvd: \"" ++ buf ++ "\""),
      MsgEffect.logError "err"]
  | some data =>
    (if validate data then [] else [MsgEffect.logError "Invalid message received:"])
      ++ [MsgEffect.onMsg data]

/-! ## The PluginClient registration handshake (`plugin-client.ts`) -/

/-- Modelled from the spec: the `constants` module (the closed message
type enumeration of §3) is not under `src/`; the two handshake message
types are represented by their symbolic names. -/
def MessageType.PLUGIN_REGISTER_REQUEST : String := "PLUGIN_REGISTER_REQUEST"

/-- Modelled from the spec: see `MessageType.PLUGIN_REGISTER_REQUEST`. -/
def MessageType.PLUGIN_REGISTER_RESPONSE : String := "PLUGIN_REGISTER_RESPONSE"

/-- The `data` object of a handshake message: the fields the embedded
code reads or writes (`Option` models absent keys). -/
structure MsgData where
  pluginId : Option String := none
  gatewayVersion : Option String := none
  userProfile : Option String := none
  ipcBaseAddr : Option String := none
deriving DecidableEq, Repr

/-- A message envelope `{ messageType, data }`. -/
structure Msg where
  messageType : String
  data : MsgData := {}
deriving DecidableEq, Repr

/-- The `AddonManagerProxy` handle built by `onManagerMsg`
(`new AddonManagerProxy(this)`); the class body is not under `src/`, so
the handle records only the plugin id of the owning client. -/
structure AddonManagerProxy where
  pluginId : String
deriving DecidableEq, Repr

/-- The `PluginClient` instance fields. `deferredReply` holds the id of
the pending `Deferred` (the `Deferred` constructor draws ids from a
module-global counter, threaded explicitly below). -/
structure PluginClient where
  pluginId : String
  ipcProtocol : String
  appInstance : String
  verbose : Bool := false
  deferredReply : Option Nat := none
  gatewayVersion : Option String := none
  userProfile : Option String := none
  addonManager : Option AddonManagerProxy := none
  pluginIpcBaseAddr : Option String := none
  pluginIpcSocket : Option IpcSocket := none
  managerIpcSocket : Option IpcSocket := none
deriving DecidableEq, Repr

/-- Externally visible effects of a `PluginClient` method call, in
program order. -/
inductive PCEffect where
  | logError (s : String)
  | connectSocket (sock : IpcSocket)
  | sendJson (sock : IpcSocket) (msg : Msg)
  | resolveDeferred (id : Nat) (proxy : AddonManagerProxy)
deriving DecidableEq, Repr

/-- Result of a `PluginClient` method call: the instance afterwards, the
effects, and `thrown` when a JavaScript exception escaped (leaving the
already-performed field assignments in place). -/
structure PCResult where
  client : PluginClient
  effects : List PCEffect
  thrown : Option String := none
deriving DecidableEq, Repr

/-- Embeds `PluginClient.onManagerMsg` (`plugin-client.ts` lines 482-517):
without a pending `deferredReply` the message is logged and dropped; a
`PLUGIN_REGISTER_RESPONSE` stores `gatewayVersion`/`userProfile`, builds
the `AddonManagerProxy`, constructs and connects the pair-type session
socket at `msg.data.ipcBaseAddr` with the bound `onMsg` of the proxy as its
handler, clears `deferredReply` and resolves it with the proxy; any
other message type is logged and the pending reply left untouched. -/
def PluginClient.onManagerMsg (c : PluginClient) (msg : Msg) : PCResult :=
  match c.deferredReply with
  | none => { client := c, effects := [PCEffect.logError "No deferredReply setup"] }
  | some d =>
    if msg.messageType = MessageType.PLUGIN_REGISTER_RESPONSE then
      let proxy : AddonManagerProxy := { pluginId := c.pluginId }
      let c1 := { c with
        gatewayVersion := msg.data.gatewayVersion
        userProfile := msg.data.userProfile
        addonManager := some proxy
        pluginIpcBaseAddr := msg.data.ipcBaseAddr }
      match IpcSocket.construct "PluginClient" "pair" c1.ipcProtocol c1.pluginIpcBaseAddr
          HandlerRef.addonManagerOnMsg c1.appInstance with
      | .error e => { client := c1, effects := [], thrown := some e }
      | .ok sock =>
        let sock1 := { sock with connected := true }
        let c2 := { c1 with pluginIpcSocket := some sock1, deferredReply := none }
        { client := c2
          effects := [PCEffect.connectSocket sock1, PCEffect.resolveDeferred d proxy] }
    else
      { client := c
        effects := [PCEffect.logError "Unexpected registration reply for gateway",
          PCEffect.logError "msg"] }

/-- Embeds `PluginClient.register` (`plugin-client.ts` lines 522-550),
threading the `Deferred` id counter: a second call while a reply is
pending logs and returns; otherwise it creates the pending `Deferred`,
constructs and connects the `req`-type rendezvous socket to
`gateway.addonManager` with `onManagerMsg` as its handler, and sends the
`PLUGIN_REGISTER_REQUEST` carrying the plugin id. -/
def PluginClient.register (c : PluginClient) (deferredIdCounter : Nat) : PCResult × Nat :=
  match c.deferredReply with
  | some _ =>
    ({ client := c, effects := [PCEffect.logError "Already waiting for registration reply"] },
      deferredIdCounter)
  | none =>
    let d := deferredIdCounter + 1
    let c1 := { c with deferredReply := some d }
    match IpcSocket.construct "PluginClientServer" "req" c1.ipcProtocol
        (some "gateway.addonManager") HandlerRef.onManagerMsg c1.appInstance with
    | .error e => ({ client := c1, effects := [], thrown := some e }, d)
    | .ok sock =>
      let sock1 := { sock with connected := true }
      let c2 := { c1 with managerIpcSocket := some sock1 }
      let reqMsg : Msg := { messageType := MessageType.PLUGIN_REGISTER_REQUEST
                            data := { pluginId := some c2.pluginId } }
      ({ client := c2
         effects := [PCEffect.connectSocket sock1, PCEffect.sendJson sock1 reqMsg] }, d)

/-- One externally driven event of a plugin client process: a call to
`register()` or the arrival of a message on the rendezvous channel. -/
inductive PCStep where
  | callRegister
  | recvManagerMsg (msg : Msg)
deriving DecidableEq, Repr

/-- A plugin client process: the client instance plus the module-global
`Deferred` id counter. -/
structure PCWorld where
  client : PluginClient
  deferredIdCounter : Nat := 0
deriving DecidableEq, Repr

/-- The fresh process state for a plugin (`new PluginClient(...)`,
counter at its initial value). -/
def PCWorld.init (pluginId ipcProtocol appInstance : String) : PCWorld :=
  { client := { pluginId := pluginId, ipcProtocol := ipcProtocol, appInstance := appInstance } }

/-- Execute one event against the process state. -/
def PCWorld.step (w : PCWorld) : PCStep → PCWorld × List PCEffect
  | .callRegister =>
    ({ client := (w.client.register w.deferredIdCounter).1.client
       deferredIdCounter := (w.client.register w.deferredIdCounter).2 },
      (w.client.register w.deferredIdCounter).1.effects)
  | .recvManagerMsg msg =>
    ({ w with client := (w.client.onManagerMsg msg).client },
      (w.client.onManagerMsg msg).effects)

/-- Execute a sequence of events, accumulating all effects in order. -/
def PCWorld.run (w : PCWorld) : List PCStep → PCWorld × List PCEffect
  | [] => (w, [])
  | s :: rest =>
    (((w.step s).1.run rest).1, (w.step s).2 ++ ((w.step s).1.run rest).2)

/-- The ids of the deferred futures resolved among a list of effects. -/
def resolvedIds : List PCEffect → List Nat
  | [] => []
  | PCEffect.resolveDeferred d _ :: rest => d :: resolvedIds rest
  | _ :: rest => resolvedIds rest

/-! ## Theorems -/

/-- The method `setValue` either resolves, or leaves the property untouched and
unnotified: every `reject` path returns before any mutation. -/
theorem Property.setValue_cases (p : Property) (v : JSVal) :
    (∃ x, (p.setValue v).result = Except.ok x)
    ∨ ((p.setValue v).prop = p ∧ (p.setValue v).notified = false) := by
  unfold Property.setValue
  split
  · exact Or.inr ⟨rfl, rfl⟩
  · split
    · exact Or.inr ⟨rfl, rfl⟩
    · split
      · exact Or.inr ⟨rfl, rfl⟩
      · split
        · exact Or.inr ⟨rfl, rfl⟩
        · split
          · exact Or.inr ⟨rfl, rfl⟩
          · exact Or.inl ⟨_, rfl⟩

/-- Claim C9: for every property and candidate value, if `setValue`
rejects (read-only, below minimum, above maximum, not a multiple of
`multipleOf`, or not in the enum list) then the cached value is
unchanged — the whole property object is untouched — and no
property-changed notification is sent to the device. -/
theorem C9_setValue_rejection_preserves_state (p : Property) (v : JSVal) (e : String)
    (h : (p.setValue v).result = Except.error e) :
    (p.setValue v).prop = p ∧ (p.setValue v).notified = false := by
  rcases Property.setValue_cases p v with ⟨x, hx⟩ | hok
  · rw [h] at hx
    cases hx
  · exact hok

/-- Witness for C9: a read-only boolean property rejects and is left
untouched. -/
theorem C9_setValue_rejection_preserves_state_witness :
    (Property.setValue { name := "on", visible := true, readOnly := some true }
        (JSVal.bool true)).result = Except.error "Read-only property"
    ∧ (Property.setValue { name := "on", visible := true, readOnly := some true }
        (JSVal.bool true)).prop = { name := "on", visible := true, readOnly := some true }
    ∧ (Property.setValue { name := "on", visible := true, readOnly := some true }
        (JSVal.bool true)).notified = false := by
  refine ⟨rfl, ?_⟩
  exact C9_setValue_rejection_preserves_state _ _ "Read-only property" rfl

/-- Claim C10: the legacy `Property` constructor computes
`propertyDescr.visible || true`, so `isVisible()` is `true` for every
description — including `visible: false` — while the generic
`Property<T>` constructor preserves an explicit `visible` value; the two
implementations therefore disagree on `isVisible()`. -/
theorem C10_visible_divergence :
    (∀ (nm : String) (d : LegacyPropertyDescription),
      (LegacyProperty.construct nm d).isVisible = true)
    ∧ (∀ (nm : String) (d : LegacyPropertyDescription) (b : Bool),
        d.visible = some b → (Property.construct nm d).isVisible = b)
    ∧ (LegacyProperty.construct "on" { visible := some false }).isVisible = true
    ∧ (Property.construct "on" { visible := some false }).isVisible = false
    ∧ (LegacyProperty.construct "on" { visible := some false }).isVisible
        ≠ (Property.construct "on" { visible := some false }).isVisible := by
  refine ⟨?_, ?_, rfl, rfl, by decide⟩
  · intro nm d
    unfold LegacyProperty.construct LegacyProperty.isVisible
    rcases d.visible with _ | b
    · rfl
    · cases b <;> rfl
  · intro nm d b h
    unfold Property.construct Property.isVisible
    rw [h]

/-- Witness for C10: the divergence at the explicit `visible: false`
description. -/
theorem C10_visible_divergence_witness :
    (LegacyProperty.construct "on" { visible := some false }).isVisible = true
    ∧ (Property.construct "on" { visible := some false }).isVisible = false :=
  ⟨C10_visible_divergence.1 "on" { visible := some false },
    C10_visible_divergence.2.1 "on" { visible := some false } false rfl⟩

/-- Counterexample to claim C1 as stated: a frame that parses as JSON
(here to the document `7`) and fails validation is still delivered to
the onMsg handler of the channel: `onData` logs the violation but does not
drop the message. -/
theorem C1_counterexample :
    (fun (_ : String) => some (7 : Nat)) "x" = some 7
    ∧ (fun (_ : Nat) => false) 7 = false
    ∧ MsgEffect.onMsg 7
        ∈ IpcSocket.onData (fun (_ : String) => some (7 : Nat)) (fun (_ : Nat) => false) "x" := by
  refine ⟨rfl, rfl, ?_⟩
  simp [IpcSocket.onData]

/-- Claim C1 as amended: for every inbound frame that parses as JSON but
fails schema validation, `onData` logs the violation and nevertheless
invokes the `onMsg` handler with the decoded message. -/
theorem C1_invalid_message_logged_and_forwarded {J : Type}
    (parseJson : String → Option J) (validate : J → Bool) (buf : String) (data : J)
    (hp : parseJson buf = some data) (hv : validate data = false) :
    IpcSocket.onData parseJson validate buf
      = [MsgEffect.logError "Invalid message received:", MsgEffect.onMsg data] := by
  simp [IpcSocket.onData, hp, hv]

/-- Witness for the amended C1. -/
theorem C1_invalid_message_logged_and_forwarded_witness :
    IpcSocket.onData (fun (_ : String) => some (7 : Nat)) (fun (_ : Nat) => false) "x"
      = [MsgEffect.logError "Invalid message received:", MsgEffect.onMsg 7] :=
  C1_invalid_message_logged_and_forwarded _ _ "x" 7 rfl rfl

/-- Claim C5: for every inbound buffer that is not decodable as JSON,
`onData` logs the parse failure and returns (it is a total function, no
exception escapes the `catch`), and the `onMsg` handler is never invoked
for that buffer. -/
theorem C5_parse_failure_logged_and_dropped {J : Type}
    (parseJson : String → Option J) (validate : J → Bool) (buf : String)
    (h : parseJson buf = none) :
    IpcSocket.onData parseJson validate buf
      = [MsgEffect.logError "Error parsing message as JSON",
          MsgEffect.logError ("Rcvd: \"" ++ buf ++ "\""),
          MsgEffect.logError "err"]
    ∧ ∀ d : J, MsgEffect.onMsg d ∉ IpcSocket.onData parseJson validate buf := by
  constructor
  · simp [IpcSocket.onData, h]
  · intro d
    simp [IpcSocket.onData, h]

/-- Witness for C5: the malformed buffer of spec scenario D. -/
theorem C5_parse_failure_logged_and_dropped_witness :
    IpcSocket.onData (fun (_ : String) => (none : Option Nat)) (fun _ => true) "not json"
      = [MsgEffect.logError "Error parsing message as JSON",
          MsgEffect.logError ("Rcvd: \"" ++ "not json" ++ "\""),
          MsgEffect.logError "err"]
    ∧ MsgEffect.onMsg 0
        ∉ IpcSocket.onData (fun (_ : String) => (none : Option Nat)) (fun _ => true) "not json" :=
  ⟨(C5_parse_failure_logged_and_dropped _ _ "not json" rfl).1,
    (C5_parse_failure_logged_and_dropped _ _ "not json" rfl).2 0⟩

/-- Adding an address makes `contains` true. -/
theorem setAdd_contains_self (l : List String) (a : String) : (setAdd l a).contains a = true := by
  unfold setAdd
  split
  · assumption
  · simp

/-- Deleting an address makes `contains` false. -/
theorem setDelete_contains_self (l : List String) (a : String) :
    (setDelete l a).contains a = false := by
  unfold setDelete
  simp

/-- Membership form of `setDelete_contains_self`. -/
theorem setDelete_not_mem_self (l : List String) (a : String) : a ∉ setDelete l a := by
  unfold setDelete
  simp

/-- Deleting a freshly added address restores the set. -/
theorem setDelete_setAdd_self (l : List String) (a : String) (h : l.contains a = false) :
    setDelete (setAdd l a) a = l := by
  have ha : a ∉ l := by simpa using h
  unfold setAdd setDelete
  rw [if_neg (by simpa using h)]
  rw [List.filter_append]
  have h2 : [a].filter (fun x => x ≠ a) = [] := by simp
  rw [h2, List.append_nil]
  rw [List.filter_eq_self]
  intro x hx
  simp only [ne_eq, decide_not, Bool.not_eq_true', decide_eq_false_iff_not]
  exact fun he => ha (he ▸ hx)

/-- Claim C7: `bind()` on a pair-type socket whose address is already in
the global bound-address set logs the conflict but throws nothing: it
still marks the socket bound, keeps the address recorded, and proceeds
to bind on the underlying transport (the embedded operation is a total
function — the translated code path contains no `throw`). -/
theorem C7_bind_address_conflict_nonfatal (g : IpcGlobals) (s : IpcSocket)
    (hpair : s.socketType = "pair") (hmem : g.boundAddrs.contains s.ipcAddr = true) :
    (IpcSocket.bind g s).sock.bound = true
    ∧ (IpcSocket.bind g s).globals.boundAddrs.contains s.ipcAddr = true
    ∧ SockEffect.logError ("address already bound: " ++ s.ipcAddr) ∈ (IpcSocket.bind g s).effects
    ∧ SockEffect.transportBind s.ipcAddr ∈ (IpcSocket.bind g s).effects := by
  have hmem2 : s.ipcAddr ∈ g.boundAddrs := by simpa using hmem
  have hadd : setAdd g.boundAddrs s.ipcAddr = g.boundAddrs := by
    unfold setAdd
    rw [if_pos hmem]
  refine ⟨?_, ?_, ?_, ?_⟩ <;>
    simp [IpcSocket.bind, hpair, hmem, hmem2, hadd]

/-- A concrete pair-type socket, exactly as the `IpcSocket` constructor
builds it for protocol `inproc`, base address `a`, app instance `app`
(see `pairSockA_construct`). -/
def pairSockA : IpcSocket :=
  { name := "Test", socketType := "pair", protocol := "inproc", baseAddr := some "a",
    ipcFile := "app-a", ipcAddr := "inproc://app-a", handler := HandlerRef.onManagerMsg,
    appInstance := "app" }

/-- The socket `pairSockA` really is what the constructor produces. -/
theorem pairSockA_construct :
    IpcSocket.construct "Test" "pair" "inproc" (some "a") HandlerRef.onManagerMsg "app"
      = Except.ok pairSockA := rfl

/-- Witness for C7: binding `pairSockA` while its address is already in
the global bound set. -/
theorem C7_bind_address_conflict_nonfatal_witness :
    (IpcSocket.bind { boundAddrs := ["inproc://app-a"], connectedAddrs := [] } pairSockA).sock.bound = true
    ∧ (IpcSocket.bind { boundAddrs := ["inproc://app-a"], connectedAddrs := [] } pairSockA).globals.boundAddrs.contains "inproc://app-a" = true
    ∧ SockEffect.logError ("address already bound: " ++ "inproc://app-a")
        ∈ (IpcSocket.bind { boundAddrs := ["inproc://app-a"], connectedAddrs := [] } pairSockA).effects
    ∧ SockEffect.transportBind "inproc://app-a"
        ∈ (IpcSocket.bind { boundAddrs := ["inproc://app-a"], connectedAddrs := [] } pairSockA).effects :=
  C7_bind_address_conflict_nonfatal { boundAddrs := ["inproc://app-a"], connectedAddrs := [] }
    pairSockA rfl (by decide)

/-- Counterexample to claim C8 as stated: when the address was already
claimed in the global connected set by someone else, connect-then-close
does not restore the set to its prior contents — `close` deletes the
pre-existing entry. -/
theorem C8_counterexample :
    (IpcSocket.close
        (IpcSocket.connect { boundAddrs := [], connectedAddrs := ["inproc://app-a"] } pairSockA).globals
        (IpcSocket.connect { boundAddrs := [], connectedAddrs := ["inproc://app-a"] } pairSockA).sock).globals
      ≠ ({ boundAddrs := [], connectedAddrs := ["inproc://app-a"] } : IpcGlobals)
    ∧ (IpcSocket.close
        (IpcSocket.connect { boundAddrs := [], connectedAddrs := ["inproc://app-a"] } pairSockA).globals
        (IpcSocket.connect { boundAddrs := [], connectedAddrs := ["inproc://app-a"] } pairSockA).sock).globals.connectedAddrs
      = [] := by
  refine ⟨?_, by decide⟩
  decide

/-- Claim C8 as amended: for every pair-type socket that is unbound and
unconnected, `close()` after `connect()` (resp. after `bind()`) returns
the socket to the unbound/unconnected state and removes the address from
the global connected (resp. bound) set; and provided the address was not
already claimed in that set beforehand, the sequence restores both
global sets exactly to their prior contents. -/
theorem C8_close_releases_address_claim (g : IpcGlobals) (s : IpcSocket)
    (hpair : s.socketType = "pair") (hb : s.bound = false) (hc : s.connected = false) :
    ((IpcSocket.close (IpcSocket.connect g s).globals (IpcSocket.connect g s).sock).sock.connected = false
      ∧ (IpcSocket.close (IpcSocket.connect g s).globals (IpcSocket.connect g s).sock).sock.bound = false
      ∧ (IpcSocket.close (IpcSocket.connect g s).globals
          (IpcSocket.connect g s).sock).globals.connectedAddrs.contains s.ipcAddr = false
      ∧ (g.connectedAddrs.contains s.ipcAddr = false →
          (IpcSocket.close (IpcSocket.connect g s).globals (IpcSocket.connect g s).sock).globals = g))
    ∧ ((IpcSocket.close (IpcSocket.bind g s).globals (IpcSocket.bind g s).sock).sock.bound = false
      ∧ (IpcSocket.close (IpcSocket.bind g s).globals (IpcSocket.bind g s).sock).sock.connected = false
      ∧ (IpcSocket.close (IpcSocket.bind g s).globals
          (IpcSocket.bind g s).sock).globals.boundAddrs.contains s.ipcAddr = false
      ∧ (g.boundAddrs.contains s.ipcAddr = false →
          (IpcSocket.close (IpcSocket.bind g s).globals (IpcSocket.bind g s).sock).globals = g)) := by
  constructor
  · refine ⟨?_, ?_, ?_, ?_⟩
    · simp [IpcSocket.connect, IpcSocket.close, hpair, hb, hc]
    · simp [IpcSocket.connect, IpcSocket.close, hpair, hb, hc]
    · simp [IpcSocket.connect, IpcSocket.close, hpair, hb, hc, setDelete_not_mem_self]
    · intro hfresh
      cases g with
      | mk ba ca =>
        simp [IpcSocket.connect, IpcSocket.close, hpair, hb, hc]
        exact setDelete_setAdd_self ca s.ipcAddr hfresh
  · refine ⟨?_, ?_, ?_, ?_⟩
    · simp [IpcSocket.bind, IpcSocket.close, hpair, hb, hc]
    · simp [IpcSocket.bind, IpcSocket.close, hpair, hb, hc]
    · simp [IpcSocket.bind, IpcSocket.close, hpair, hb, hc, setDelete_not_mem_self]
    · intro hfresh
      cases g with
      | mk ba ca =>
        simp [IpcSocket.bind, IpcSocket.close, hpair, hb, hc]
        exact setDelete_setAdd_self ba s.ipcAddr hfresh

/-- Witness for the amended C8: `pairSockA` against empty global sets. -/
theorem C8_close_releases_address_claim_witness :
    (IpcSocket.close (IpcSocket.connect {} pairSockA).globals
        (IpcSocket.connect {} pairSockA).sock).globals = ({} : IpcGlobals)
    ∧ (IpcSocket.close (IpcSocket.bind {} pairSockA).globals
        (IpcSocket.bind {} pairSockA).sock).globals = ({} : IpcGlobals) :=
  ⟨(C8_close_releases_address_claim {} pairSockA rfl rfl rfl).1.2.2.2 rfl,
    (C8_close_releases_address_claim {} pairSockA rfl rfl rfl).2.2.2.2 rfl⟩

/-- Claim C2: a `PluginClient` in the awaiting-response state (a
pending `deferredReply`, which entails a valid IPC protocol since
`register()` must have constructed the rendezvous socket) that receives
a `PLUGIN_REGISTER_RESPONSE` stores the `gatewayVersion` and
`userProfile` from the message data, constructs an `AddonManagerProxy`,
creates and connects a pair-type session socket at the `ipcBaseAddr`
of the message with the `onMsg` of the proxy as handler, and resolves the
pending registration future with that proxy. -/
theorem C2_register_response_transition (c : PluginClient) (msg : Msg) (d : Nat)
    (hpend : c.deferredReply = some d)
    (htype : msg.messageType = MessageType.PLUGIN_REGISTER_RESPONSE)
    (hproto : c.ipcProtocol = "ipc" ∨ c.ipcProtocol = "inproc") :
    (c.onManagerMsg msg).thrown = none
    ∧ (c.onManagerMsg msg).client.gatewayVersion = msg.data.gatewayVersion
    ∧ (c.onManagerMsg msg).client.userProfile = msg.data.userProfile
    ∧ (c.onManagerMsg msg).client.pluginIpcBaseAddr = msg.data.ipcBaseAddr
    ∧ (c.onManagerMsg msg).client.deferredReply = none
    ∧ ∃ proxy sock,
        (c.onManagerMsg msg).client.addonManager = some proxy
        ∧ (c.onManagerMsg msg).client.pluginIpcSocket = some sock
        ∧ sock.socketType = "pair"
        ∧ sock.baseAddr = msg.data.ipcBaseAddr
        ∧ sock.handler = HandlerRef.addonManagerOnMsg
        ∧ sock.connected = true
        ∧ (c.onManagerMsg msg).effects
            = [PCEffect.connectSocket sock, PCEffect.resolveDeferred d proxy] := by
  rcases hproto with hp | hp <;>
    simp [PluginClient.onManagerMsg, hpend, htype, IpcSocket.construct, mkIpcFile, hp]

/-- Witness for C2: the registration response of spec scenario A against a
concrete awaiting client. -/
theorem C2_register_response_transition_witness :
    (PluginClient.onManagerMsg
        { pluginId := "acme", ipcProtocol := "inproc", appInstance := "app", deferredReply := some 1 }
        { messageType := MessageType.PLUGIN_REGISTER_RESPONSE
          data := { gatewayVersion := some "1.0", userProfile := some "profile",
                    ipcBaseAddr := some "acme.session" } }).thrown = none
    ∧ (PluginClient.onManagerMsg
        { pluginId := "acme", ipcProtocol := "inproc", appInstance := "app", deferredReply := some 1 }
        { messageType := MessageType.PLUGIN_REGISTER_RESPONSE
          data := { gatewayVersion := some "1.0", userProfile := some "profile",
                    ipcBaseAddr := some "acme.session" } }).client.gatewayVersion = some "1.0"
    ∧ (PluginClient.onManagerMsg
        { pluginId := "acme", ipcProtocol := "inproc", appInstance := "app", deferredReply := some 1 }
        { messageType := MessageType.PLUGIN_REGISTER_RESPONSE
          data := { gatewayVersion := some "1.0", userProfile := some "profile",
                    ipcBaseAddr := some "acme.session" } }).client.deferredReply = none :=
  ⟨(C2_register_response_transition _ _ 1 rfl rfl (Or.inr rfl)).1,
    (C2_register_response_transition _ _ 1 rfl rfl (Or.inr rfl)).2.1,
    (C2_register_response_transition _ _ 1 rfl rfl (Or.inr rfl)).2.2.2.2.1⟩

/-- Claim C6: a `PluginClient` in the awaiting-response state that
receives any message whose type is not `PLUGIN_REGISTER_RESPONSE` only
logs: the instance is unchanged (in particular the pending future is
still pending, no session socket was created) and no deferred future is
resolved by that message. -/
theorem C6_unexpected_reply_leaves_future_pending (c : PluginClient) (msg : Msg) (d : Nat)
    (hpend : c.deferredReply = some d)
    (htype : msg.messageType ≠ MessageType.PLUGIN_REGISTER_RESPONSE) :
    c.onManagerMsg msg
      = { client := c
          effects := [PCEffect.logError "Unexpected registration reply for gateway",
            PCEffect.logError "msg"]
          thrown := none }
    ∧ (c.onManagerMsg msg).client.deferredReply = some d
    ∧ (c.onManagerMsg msg).client.pluginIpcSocket = c.pluginIpcSocket
    ∧ resolvedIds (c.onManagerMsg msg).effects = [] := by
  have h1 : c.onManagerMsg msg
      = { client := c
          effects := [PCEffect.logError "Unexpected registration reply for gateway",
            PCEffect.logError "msg"]
          thrown := none } := by
    simp [PluginClient.onManagerMsg, hpend, htype]
  refine ⟨h1, ?_, ?_, ?_⟩ <;> rw [h1] <;> simp [resolvedIds, hpend]

/-- Witness for C6: a stray `DEVICE_ADDED` while awaiting the
registration reply. -/
theorem C6_unexpected_reply_leaves_future_pending_witness :
    (PluginClient.onManagerMsg
        { pluginId := "acme", ipcProtocol := "inproc", appInstance := "app", deferredReply := some 1 }
        { messageType := "DEVICE_ADDED" }).client.deferredReply = some 1
    ∧ resolvedIds (PluginClient.onManagerMsg
        { pluginId := "acme", ipcProtocol := "inproc", appInstance := "app", deferredReply := some 1 }
        { messageType := "DEVICE_ADDED" }).effects = [] :=
  ⟨(C6_unexpected_reply_leaves_future_pending _ _ 1 rfl (by decide)).2.1,
    (C6_unexpected_reply_leaves_future_pending _ _ 1 rfl (by decide)).2.2.2⟩

/-- The module-counter invariant of the handshake process: a pending
deferred id never exceeds the `Deferred` id counter. -/
def PCWorld.Inv (w : PCWorld) : Prop :=
  ∀ d, w.client.deferredReply = some d → d ≤ w.deferredIdCounter

/-- The projection `resolvedIds` distributes over effect concatenation. -/
theorem resolvedIds_append (a b : List PCEffect) :
    resolvedIds (a ++ b) = resolvedIds a ++ resolvedIds b := by
  induction a with
  | nil => rfl
  | cons x xs ih => cases x <;> simp [resolvedIds, ih]

/-- One step of the handshake process preserves the counter invariant,
never decreases the counter, only creates strictly fresh pending ids,
and resolves at most the currently pending future (clearing it). -/
theorem PCWorld.step_spec (w : PCWorld) (s : PCStep) (hInv : PCWorld.Inv w) :
    PCWorld.Inv (w.step s).1
    ∧ w.deferredIdCounter ≤ (w.step s).1.deferredIdCounter
    ∧ (∀ x, (w.step s).1.client.deferredReply = some x →
        w.client.deferredReply = some x ∨ w.deferredIdCounter < x)
    ∧ (resolvedIds (w.step s).2 = []
        ∨ ∃ d, resolvedIds (w.step s).2 = [d]
            ∧ w.client.deferredReply = some d
            ∧ (w.step s).1.client.deferredReply = none
            ∧ (w.step s).1.deferredIdCounter = w.deferredIdCounter) := by
  cases s with
  | callRegister =>
    cases hd : w.client.deferredReply with
    | some d =>
      have hstep : w.step PCStep.callRegister
          = (w, [PCEffect.logError "Already waiting for registration reply"]) := by
        simp [PCWorld.step, PluginClient.register, hd]
      rw [hstep]
      refine ⟨hInv, le_refl _, ?_, Or.inl rfl⟩
      intro x hx
      have hx2 : w.client.deferredReply = some x := hx
      rw [hd] at hx2
      exact Or.inl hx2
    | none =>
      cases hcon : IpcSocket.construct "PluginClientServer" "req" w.client.ipcProtocol
          (some "gateway.addonManager") HandlerRef.onManagerMsg w.client.appInstance with
      | error e =>
        have hstep : w.step PCStep.callRegister
            = ({ client := { w.client with
                   deferredReply := some (w.deferredIdCounter + 1) }
                 deferredIdCounter := w.deferredIdCounter + 1 }, []) := by
          simp [PCWorld.step, PluginClient.register, hd, hcon]
        rw [hstep]
        refine ⟨?_, ?_, ?_, Or.inl rfl⟩
        · intro x hx
          have hx2 : some (w.deferredIdCounter + 1) = some x := hx
          injection hx2 with h
          show x ≤ w.deferredIdCounter + 1
          omega
        · show w.deferredIdCounter ≤ w.deferredIdCounter + 1
          omega
        · intro x hx
          have hx2 : some (w.deferredIdCounter + 1) = some x := hx
          injection hx2 with h
          exact Or.inr (by omega)
      | ok sock =>
        have hstep : w.step PCStep.callRegister
            = ({ client := { w.client with
                   deferredReply := some (w.deferredIdCounter + 1)
                   managerIpcSocket := some { sock with connected := true } }
                 deferredIdCounter := w.deferredIdCounter + 1 },
                [PCEffect.connectSocket { sock with connected := true },
                  PCEffect.sendJson { sock with connected := true }
                    { messageType := MessageType.PLUGIN_REGISTER_REQUEST
                      data := { pluginId := some w.client.pluginId } }]) := by
          simp [PCWorld.step, PluginClient.register, hd, hcon]
        rw [hstep]
        refine ⟨?_, ?_, ?_, Or.inl rfl⟩
        · intro x hx
          have hx2 : some (w.deferredIdCounter + 1) = some x := hx
          injection hx2 with h
          show x ≤ w.deferredIdCounter + 1
          omega
        · show w.deferredIdCounter ≤ w.deferredIdCounter + 1
          omega
        · intro x hx
          have hx2 : some (w.deferredIdCounter + 1) = some x := hx
          injection hx2 with h
          exact Or.inr (by omega)
  | recvManagerMsg msg =>
    cases hd : w.client.deferredReply with
    | none =>
      have hstep : w.step (PCStep.recvManagerMsg msg)
          = (w, [PCEffect.logError "No deferredReply setup"]) := by
        simp [PCWorld.step, PluginClient.onManagerMsg, hd]
      rw [hstep]
      refine ⟨hInv, le_refl _, ?_, Or.inl rfl⟩
      intro x hx
      have hx2 : w.client.deferredReply = some x := hx
      rw [hd] at hx2
      exact Or.inl hx2
    | some d =>
      by_cases ht : msg.messageType = MessageType.PLUGIN_REGISTER_RESPONSE
      · cases hcon : IpcSocket.construct "PluginClient" "pair" w.client.ipcProtocol
            msg.data.ipcBaseAddr HandlerRef.addonManagerOnMsg w.client.appInstance with
        | error e =>
          have hstep : w.step (PCStep.recvManagerMsg msg)
              = ({ client := { w.client with
                     gatewayVersion := msg.data.gatewayVersion
                     userProfile := msg.data.userProfile
                     addonManager := some { pluginId := w.client.pluginId }
                     pluginIpcBaseAddr := msg.data.ipcBaseAddr }
                   deferredIdCounter := w.deferredIdCounter }, []) := by
            simp [PCWorld.step, PluginClient.onManagerMsg, hd, ht, hcon]
          rw [hstep]
          refine ⟨?_, le_refl _, ?_, Or.inl rfl⟩
          · intro x hx
            have hx2 : w.client.deferredReply = some x := hx
            show x ≤ w.deferredIdCounter
            exact hInv x hx2
          · intro x hx
            have hx2 : w.client.deferredReply = some x := hx
            rw [hd] at hx2
            exact Or.inl hx2
        | ok sock =>
          have hstep : w.step (PCStep.recvManagerMsg msg)
              = ({ client := { w.client with
                     gatewayVersion := msg.data.gatewayVersion
                     userProfile := msg.data.userProfile
                     addonManager := some { pluginId := w.client.pluginId }
                     pluginIpcBaseAddr := msg.data.ipcBaseAddr
                     pluginIpcSocket := some { sock with connected := true }
                     deferredReply := none }
                   deferredIdCounter := w.deferredIdCounter },
                  [PCEffect.connectSocket { sock with connected := true },
                    PCEffect.resolveDeferred d { pluginId := w.client.pluginId }]) := by
            simp [PCWorld.step, PluginClient.onManagerMsg, hd, ht, hcon]
          rw [hstep]
          refine ⟨?_, le_refl _, ?_, Or.inr ⟨d, rfl, rfl, rfl, rfl⟩⟩
          · intro x hx
            have hx2 : (none : Option Nat) = some x := hx
            exact Option.noConfusion hx2
          · intro x hx
            have hx2 : (none : Option Nat) = some x := hx
            exact Option.noConfusion hx2
      · have hstep : w.step (PCStep.recvManagerMsg msg)
            = (w, [PCEffect.logError "Unexpected registration reply for gateway",
                PCEffect.logError "msg"]) := by
          simp [PCWorld.step, PluginClient.onManagerMsg, hd, ht]
        rw [hstep]
        refine ⟨hInv, le_refl _, ?_, Or.inl rfl⟩
        intro x hx
        have hx2 : w.client.deferredReply = some x := hx
        rw [hd] at hx2
        exact Or.inl hx2

/-- Along every event sequence the resolved deferred ids are pairwise
distinct, and each is either the initially pending id or strictly fresh. -/
theorem PCWorld.run_resolved_spec (steps : List PCStep) : ∀ (w : PCWorld), PCWorld.Inv w →
    (resolvedIds (w.run steps).2).Nodup
    ∧ (∀ x ∈ resolvedIds (w.run steps).2,
        w.client.deferredReply = some x ∨ w.deferredIdCounter < x) := by
  induction steps with
  | nil =>
    intro w hInv
    simp [PCWorld.run, resolvedIds]
  | cons s rest ih =>
    intro w hInv
    obtain ⟨hInv1, hmono, hpend, hres⟩ := PCWorld.step_spec w s hInv
    obtain ⟨ih1, ih2⟩ := ih (w.step s).1 hInv1
    have hrun : (w.run (s :: rest)).2 = (w.step s).2 ++ ((w.step s).1.run rest).2 := by
      simp [PCWorld.run]
    rw [hrun, resolvedIds_append]
    rcases hres with hnil | ⟨d, hd1, hd2, hd3, hd4⟩
    · rw [hnil]
      simp only [List.nil_append]
      refine ⟨ih1, ?_⟩
      intro x hx
      rcases ih2 x hx with hp | hlt
      · exact hpend x hp
      · exact Or.inr (lt_of_le_of_lt hmono hlt)
    · rw [hd1]
      constructor
      · refine List.nodup_cons.mpr ⟨?_, ih1⟩
        intro hmem
        rcases ih2 d hmem with hp | hlt
        · rw [hd3] at hp
          cases hp
        · rw [hd4] at hlt
          have hle : d ≤ w.deferredIdCounter := hInv d hd2
          omega
      · intro x hx
        rcases List.mem_cons.mp hx with rfl | hx2
        · exact Or.inl hd2
        · rcases ih2 x hx2 with hp | hlt
          · rw [hd3] at hp
            cases hp
          · rw [hd4] at hlt
            exact Or.inr hlt

/-- Claim C3: calling `register()` while a reply is pending logs an
error and returns with the client unchanged — no socket connection, no
request sent, no new future — and along every event sequence of a
plugin process each registration future is resolved at most once (the
client holds at most one pending future by construction: the single
`deferredReply` field). -/
theorem C3_register_single_flight :
    (∀ (c : PluginClient) (n d : Nat), c.deferredReply = some d →
      c.register n
        = ({ client := c
             effects := [PCEffect.logError "Already waiting for registration reply"]
             thrown := none }, n))
    ∧ (∀ (pid proto inst : String) (steps : List PCStep),
        (resolvedIds ((PCWorld.init pid proto inst).run steps).2).Nodup) := by
  constructor
  · intro c n d h
    simp [PluginClient.register, h]
  · intro pid proto inst steps
    refine (PCWorld.run_resolved_spec steps (PCWorld.init pid proto inst) ?_).1
    intro d h
    simp [PCWorld.init] at h

/-- Witness for C3: a second `register()` call while awaiting, and a
concrete double-register-then-response run. -/
theorem C3_register_single_flight_witness :
    (PluginClient.register
        { pluginId := "acme", ipcProtocol := "inproc", appInstance := "app",
          deferredReply := some 1 } 1
      = ({ client := { pluginId := "acme", ipcProtocol := "inproc", appInstance := "app",
                       deferredReply := some 1 }
           effects := [PCEffect.logError "Already waiting for registration reply"]
           thrown := none }, 1))
    ∧ (resolvedIds ((PCWorld.init "acme" "inproc" "app").run
        [PCStep.callRegister, PCStep.callRegister,
          PCStep.recvManagerMsg { messageType := MessageType.PLUGIN_REGISTER_RESPONSE }]).2).Nodup :=
  ⟨C3_register_single_flight.1 _ 1 1 rfl,
    C3_register_single_flight.2 "acme" "inproc" "app" _⟩

/-- Setting a `true` boolean stores `some (bool true)` regardless of the
declared type (the boolean coercion is the identity on `true`). -/
theorem Property.setCachedValue_bool_true (p : Property) :
    p.setCachedValue (JSVal.bool true) = { p with value := some (JSVal.bool true) } := by
  unfold Property.setCachedValue
  split <;> rfl

/-- Looking up a key after replacing its entry finds the replacement. -/
theorem findStoreAssoc (l : List (String × Property)) (n : String) (q : Property)
    (h : (l.find? (fun kv => kv.1 = n)).isSome = true) :
    ((l.map (fun kv => if kv.1 = n then (kv.1, q) else kv)).find?
        (fun kv => kv.1 = n)).map (fun kv => kv.2) = some q := by
  induction l with
  | nil => simp at h
  | cons kv rest ih =>
    by_cases hk : kv.1 = n
    · simp [List.find?, hk]
    · have hdk : decide (kv.1 = n) = false := decide_eq_false hk
      simp only [List.find?, List.map_cons, if_neg hk, hdk] at h ⊢
      exact ih h

/-- Lookup via `findProperty` after `storeProperty` on a present key returns the
stored property. -/
theorem Device.findProperty_storeProperty (d : Device) (n : String) (q : Property)
    (h : (d.findProperty n).isSome = true) :
    (d.storeProperty n q).findProperty n = some q := by
  unfold Device.findProperty Device.storeProperty
  unfold Device.findProperty at h
  apply findStoreAssoc
  rcases hf : d.properties.find? (fun kv => kv.1 = n) with _ | kv
  · rw [hf] at h
    simp at h
  · rw [hf]
    rfl

/-- The read-only `on` property used to refute claim C4 as stated. -/
def onReadOnlyProp : Property :=
  { name := "on", visible := true, typ := some "boolean", readOnly := some true,
    value := some (JSVal.bool false) }

/-- A device whose registered `on` property is read-only. -/
def devRO : Device := { id := "d1", properties := [("on", onReadOnlyProp)] }

/-- Counterexample to claim C4 as stated: `devRO` has a registered
property named `on`, yet `setProperty("on", true)` rejects with
`Read-only property`, the cached value stays `false`, and no
property-changed notification is emitted. -/
theorem C4_counterexample :
    devRO.findProperty "on" = some onReadOnlyProp
    ∧ (devRO.setProperty "on" (JSVal.bool true)).result = Except.error "Read-only property"
    ∧ (devRO.setProperty "on" (JSVal.bool true)).device.findProperty "on" = some onReadOnlyProp
    ∧ onReadOnlyProp.value = some (JSVal.bool false)
    ∧ (devRO.setProperty "on" (JSVal.bool true)).notifications = [] :=
  ⟨rfl, rfl, rfl, rfl, rfl⟩

/-- Claim C4 as amended: for every device with a registered property
named `on` that is writable and whose constraints accept `true`
(no minimum/maximum/multipleOf/enum), `setProperty("on", true)` resolves
with `true` and stores `true` as the cached value; the `PROPERTY_CHANGED`
notification toward the session channel is emitted exactly when the
cached value was not already `true`. -/
theorem C4_set_property_on_true (d : Device) (p : Property)
    (hfind : d.findProperty "on" = some p)
    (hro : jsTruthyOptBool p.readOnly = false)
    (hmin : p.minimum = none) (hmax : p.maximum = none)
    (hmul : p.multipleOf = none) (henum : p.enum = none) :
    (d.setProperty "on" (JSVal.bool true)).result = Except.ok (some (JSVal.bool true))
    ∧ (d.setProperty "on" (JSVal.bool true)).device.findProperty "on"
        = some { p with value := some (JSVal.bool true) }
    ∧ (p.value ≠ some (JSVal.bool true) →
        (d.setProperty "on" (JSVal.bool true)).notifications
          = [{ messageType := "PROPERTY_CHANGED", deviceId := d.id,
               propertyName := p.name, propertyValue := some (JSVal.bool true) }])
    ∧ (p.value = some (JSVal.bool true) →
        (d.setProperty "on" (JSVal.bool true)).notifications = []) := by
  have hsv : p.setValue (JSVal.bool true)
      = { result := Except.ok (some (JSVal.bool true))
          prop := { p with value := some (JSVal.bool true) }
          notified := decide (¬ p.value = some (JSVal.bool true)) } := by
    unfold Property.setValue
    rw [if_neg (by rw [hro]; simp)]
    rw [if_neg (by rw [hmin]; simp [jsTruthyOptNum])]
    rw [if_neg (by rw [hmax]; simp [jsTruthyOptNum])]
    rw [if_neg (by rw [hmul]; simp [jsTruthyOptNum])]
    rw [if_neg (by rw [henum]; simp)]
    unfold Property.setCachedValueAndNotify
    rw [Property.setCachedValue_bool_true]
  have hout : d.setProperty "on" (JSVal.bool true)
      = { result := Except.ok (some (JSVal.bool true))
          device := d.storeProperty "on" { p with value := some (JSVal.bool true) }
          notifications :=
            if decide (¬ p.value = some (JSVal.bool true)) = true
            then [sendPropertyChangedNotification d.id { p with value := some (JSVal.bool true) }]
            else [] } := by
    unfold Device.setProperty
    rw [hfind]
    dsimp only
    rw [hsv]
  refine ⟨?_, ?_, ?_, ?_⟩
  · rw [hout]
  · rw [hout]
    exact Device.findProperty_storeProperty d "on" _ (by rw [hfind]; rfl)
  · intro hne
    rw [hout]
    simp only [sendPropertyChangedNotification]
    rw [if_pos (by simpa using hne)]
  · intro heq
    rw [hout]
    rw [if_neg (by simp [heq])]

/-- The writable boolean `on` property used as the C4 witness input. -/
def onProp : Property :=
  { name := "on", visible := true, typ := some "boolean", value := some (JSVal.bool false) }

/-- A device with a writable `on` property cached at `false`. -/
def devOK : Device := { id := "d1", properties := [("on", onProp)] }

/-- Witness for the amended C4: the SET_PROPERTY of spec scenario B on a
writable `on` property currently `false`. -/
theorem C4_set_property_on_true_witness :
    (devOK.setProperty "on" (JSVal.bool true)).result = Except.ok (some (JSVal.bool true))
    ∧ (devOK.setProperty "on" (JSVal.bool true)).notifications
        = [{ messageType := "PROPERTY_CHANGED", deviceId := "d1",
             propertyName := "on", propertyValue := some (JSVal.bool true) }] :=
  ⟨(C4_set_property_on_true devOK onProp rfl rfl rfl rfl rfl rfl).1,
    (C4_set_property_on_true devOK onProp rfl rfl rfl rfl rfl rfl).2.2.1 (by decide)⟩

end GatewayAddon
